import Mathlib

/-!
Shallow embedding of the short-track strategy engine (the pure functions of
the repository's strategy module: threat evaluation, pace planning, matchup
analysis, win-probability, advice generation, lap planning, synthetic skater
building and the orchestrating `generateStrategy`).

Modelling conventions, used uniformly below:
* JS numbers are embedded as exact rationals `ℚ`; the decimal literals of the
  source (`0.55`, `0.33`, ...) are read as exact decimal fractions.
* `Math.round` is `jsRound` (round half toward positive infinity),
  `Math.floor`/`Math.ceil` are `Int.floor`/`Int.ceil`.
* `x || d` on numbers is `tsOr x d` (JS treats the number `0` as falsy);
  `x || d` on strings is `tsOrStr x d` (the empty string is falsy).
* JS object literals keyed by strings are insertion-ordered association
  lists `List (String × α)`; `obj[k]` is `recGet`, `?.`/`??` is `Option`.
* `Array.prototype.sort` with a numeric comparator is modelled by the stable
  `List.insertionSort` under the corresponding total relation.
* `Math.exp` is an explicit function parameter `expQ : ℚ → ℚ` threaded into
  the win-probability model; theorems assume only the facts about it that
  the real exponential satisfies (positivity, value at 0).
* Template-literal interpolation of a number is `numStr`; it agrees with JS
  for the integral values the engine interpolates.
-/

namespace ShortTrack

-- Batteries marks the `Rat` arithmetic primitives irreducible; restore
-- reducibility locally so that concrete rational computations evaluate.
attribute [local semireducible] Rat.add Rat.sub Rat.mul Rat.inv Rat.ofScientific

/-- JS `Math.round`: round half toward positive infinity. -/
def jsRound (x : ℚ) : ℤ := ⌊x + 1/2⌋

/-- `jsRound`, returned as a rational (JS numbers stay numbers). -/
def jsRoundQ (x : ℚ) : ℚ := (jsRound x : ℚ)

/-- JS `x || d` on numbers: `d` when `x` is the falsy number `0`, else `x`. -/
def tsOr (x d : ℚ) : ℚ := if x = 0 then d else x

/-- JS `x || d` on strings: `d` when `x` is the falsy empty string, else `x`. -/
def tsOrStr (x d : String) : String := if x = "" then d else x

/-- Property lookup `obj[k]` on a JS object modelled as an association list. -/
def recGet {α : Type} (r : List (String × α)) (k : String) : Option α :=
  (r.find? (fun p => p.1 == k)).map (fun p => p.2)

/-- Interpolation `${n}` of a number into a template literal.  Exact for the
integral values the engine interpolates; non-integral rationals are rendered
as `num/den` (a stand-in for JS float formatting, which is outside this
exact-rational embedding). -/
def numStr (q : ℚ) : String :=
  if q.den = 1 then toString q.num else toString q.num ++ ("/") ++ toString q.den

-- ── Style (the `Style` string union of types/data.ts) ──

inductive Style where
  | late_mover
  | front_runner
  | mid_surge
  | balanced
  | no_passes
  | developing
  | sprint
  | unknown
deriving DecidableEq

/-- The string value carried by a `Style` tag in the source. -/
def styleStr (s : Style) : String :=
  match s with
  | .late_mover => "late_mover"
  | .front_runner => "front_runner"
  | .mid_surge => "mid_surge"
  | .balanced => "balanced"
  | .no_passes => "no_passes"
  | .developing => "developing"
  | .sprint => "sprint"
  | .unknown => "unknown"

/-- The strategy module's own `STYLE_LABELS` table (five entries only). -/
def STYLE_LABELS : List (String × String) :=
  [("late_mover", "Late Mover"),
   ("front_runner", "Front Runner"),
   ("mid_surge", "Mid-Race Surge"),
   ("balanced", "Balanced"),
   ("no_passes", "No Passes")]

/-- `STYLE_LABELS[s]` interpolated into a template literal: a missing entry
is `undefined` and JS renders it as the string `"undefined"`. -/
def styleLabel (s : String) : String := (recGet STYLE_LABELS s).getD ("undefined")

-- ── Skater data model (types/data.ts, unified schema) ──

structure Medal where
  gold : ℚ
  silver : ℚ
  bronze : ℚ
  total : ℚ
deriving DecidableEq

structure SkaterStats where
  total_races : ℚ
  competitions_entered : ℚ
  medals : Medal
  finals_appearances : ℚ
  total_passes_made : ℚ
  total_times_passed : ℚ
  net_passes : ℚ
  avg_passes_per_race : ℚ
  passes_early : ℚ
  passes_middle : ℚ
  passes_late : ℚ
  style : Style
  threat_score : ℚ
  avg_place : Option ℚ
  podium_rate : Option ℚ
  win_rate : Option ℚ
  penalties : ℚ
  dnf : ℚ
  dns : ℚ
  penalty_rate : ℚ
  clean_race_pct : ℚ
  crashes_inferred : ℚ
  crash_rate : ℚ
deriving DecidableEq

structure SkaterEvent where
  event_id : String
  name : String
  season : Option String
  races : ℚ
  best_rank : Option ℚ
  finals_reached : Bool
  medal : Option String
deriving DecidableEq

structure SkaterDistance where
  distance : String
  races : ℚ
  best_time : Option ℚ
  best_place : Option ℚ
  avg_place : Option ℚ
deriving DecidableEq

/-- `PersonalBestDetail` (the source field `class` is a Lean keyword and is
embedded as `cls`). -/
structure PersonalBestDetail where
  distance : ℚ
  cls : String
  time : String
  competition : String
  date : String
deriving DecidableEq

/-- `SkaterProfile`; the two `unknown[]` payloads are opaque to the engine
and embedded as `List Unit`. -/
structure SkaterProfile where
  personal_bests_detail : Option (List PersonalBestDetail)
  distance_classifications : Option (List Unit)
  overall_classifications : Option (List Unit)
deriving DecidableEq

structure Skater where
  id : String
  name : String
  nationality : String
  flag : String
  gender : String
  category : String
  source : String
  dob : Option String
  age : Option ℚ
  height : Option ℚ
  club : Option String
  age_category : Option String
  seasons : List String
  stats : SkaterStats
  distances : List SkaterDistance
  personal_bests : Option (List (String × String))
  events : List SkaterEvent
  profile : Option SkaterProfile
deriving DecidableEq

-- ── Strategy-engine record types (strategy.ts) ──

structure Pace where
  early : ℚ
  middle : ℚ
  late : ℚ
deriving DecidableEq

structure AdviceItem where
  icon : String
  text : String
deriving DecidableEq

inductive Phase where
  | Early
  | Mid
  | Late
deriving DecidableEq

inductive ActionClass where
  | hold
  | push
  | overtake
  | conserve
deriving DecidableEq

structure LapPlanItem where
  lap : ℕ
  phase : Phase
  hotspot : Bool
  action : String
  actionClass : ActionClass
deriving DecidableEq

inductive ThreatLevel where
  | high
  | medium
  | low
deriving DecidableEq

structure OpponentThreat where
  name : String
  flag : String
  nationality : String
  style : Style
  threat_score : ℚ
  threatLevel : ThreatLevel
  net_passes : ℚ
  avg_passes_per_race : ℚ
  total_races : ℚ
  medals_total : ℚ
  penalties : ℚ
  crash_count : ℚ
  penalty_rate : ℚ
  crash_rate : ℚ
  lane : Option ℚ
deriving DecidableEq

structure MatchupInsight where
  opponent : String
  flag : String
  advantage : Bool
  disadvantage : Bool
  winRate : ℚ
  myStyle : String
  oppStyle : String
  note : String
deriving DecidableEq

structure LapOvertakeData where
  lap : ℕ
  overtakes : ℚ
  isHotspot : Bool
deriving DecidableEq

structure WinProbability where
  overall : ℚ
  laneBase : ℚ
  strengthAdj : ℚ
  matchupAdj : ℚ
  podium : ℚ
  explanation : String
  hasOpponents : Bool
deriving DecidableEq

-- ── Aggregate model data (types/data.ts, as consumed by the engine) ──

/-- `LaneAdvantage` rows; the engine additionally reads an optional
`top2_rate` from the raw data (cast in `generateStrategy`). -/
structure LaneAdvantage where
  win_rate : ℚ
  top2_rate : Option ℚ
  total : ℚ
deriving DecidableEq

structure HotspotLap where
  lap : ℚ
  overtakes : ℚ
deriving DecidableEq

structure StyleMatchup where
  win_rate : ℚ
  total : ℚ
deriving DecidableEq

structure TimingEntry where
  count : ℚ
  pct : ℚ
deriving DecidableEq

structure LapDetail where
  overtakes : ℚ
deriving DecidableEq

structure StrategyData where
  lane_advantage : List (String × List (String × LaneAdvantage))
  hotspot_laps : List (String × List HotspotLap)
  overtake_timing : List (String × List (String × TimingEntry))
  lap_details : List (String × List (String × LapDetail))
  style_matchups : List (String × List (String × StyleMatchup))
  pace_profiles : List (String × Unit)
  strategy_templates : List (String × Unit)
  skater_list : List Skater
deriving DecidableEq

/-- `Models`; the strategy engine reads only the `strategy` member, the two
fitted models are opaque to it. -/
structure Models where
  overtake_model : Unit
  medal_model : Unit
  strategy : StrategyData
deriving DecidableEq

structure StrategyResult where
  mySkaterName : String
  mySkaterFlag : String
  distance : String
  lane : ℚ
  totalLaps : ℕ
  style : Style
  pace : Pace
  advice : List AdviceItem
  lapPlan : List LapPlanItem
  opponentThreats : List OpponentThreat
  matchupInsights : List MatchupInsight
  laneWinRate : Option ℚ
  winProbability : WinProbability
  lapOvertakeData : List LapOvertakeData
deriving DecidableEq

-- ── Total laps table ──

def TOTAL_LAPS : List (String × ℕ) := [("500", 5), ("1000", 9), ("1500", 14)]

/-- `TOTAL_LAPS[distance] || 9`. -/
def totalLapsFor (distance : String) : ℕ :=
  match recGet TOTAL_LAPS distance with
  | some n => if n = 0 then 9 else n
  | none => 9

-- ── Threat evaluator ──

/-- `computeThreatLevel`: fixed-threshold classification of a threat score. -/
def computeThreatLevel (threatScore : ℚ) : ThreatLevel :=
  if 60 ≤ threatScore then .high
  else if 30 ≤ threatScore then .medium
  else .low

/-- `buildOpponentThreat`: the threat-evaluator view of a skater profile.
`stats.medals` is always an object in the unified schema, so the source's
truthiness guard on it always takes the populated branch; the `?? 0`
defaults on the non-nullable discipline fields are identities. -/
def buildOpponentThreat (skater : Skater) (lane : Option ℚ) : OpponentThreat :=
  let stats := skater.stats
  let totalMedals := tsOr stats.medals.gold 0 + tsOr stats.medals.silver 0 + tsOr stats.medals.bronze 0
  let threatScore := tsOr stats.threat_score 0
  { name := skater.name
    flag := skater.flag
    nationality := skater.nationality
    style := stats.style
    threat_score := jsRoundQ threatScore
    threatLevel := computeThreatLevel threatScore
    net_passes := stats.net_passes
    avg_passes_per_race := jsRoundQ (stats.avg_passes_per_race * 100) / 100
    total_races := stats.total_races
    medals_total := totalMedals
    penalties := stats.penalties
    crash_count := stats.crashes_inferred
    penalty_rate := stats.penalty_rate
    crash_rate := stats.crash_rate
    lane := lane }

-- ── Pace planner (`computePace`), stage by stage in source order ──

/-- The `paceBase` table; `paceBase[style] || paceBase.balanced` falls back
to the balanced triple for the styles without an entry. -/
def paceBase (style : Style) : Pace :=
  match style with
  | .front_runner => { early := 40, middle := 35, late := 25 }
  | .late_mover => { early := 25, middle := 35, late := 40 }
  | .mid_surge => { early := 30, middle := 40, late := 30 }
  | .balanced => { early := 33, middle := 34, late := 33 }
  | .no_passes => { early := 33, middle := 34, late := 33 }
  | _ => { early := 33, middle := 34, late := 33 }

/-- The distance adjustment of `computePace`. -/
def distanceAdjust (distance : String) (p : Pace) : Pace :=
  let p1 := if distance = "500" then { p with early := p.early + 5, late := p.late - 5 } else p
  if distance = "1500" then { p1 with early := p1.early - 5, late := p1.late + 5 } else p1

/-- The lane adjustment of `computePace`. -/
def laneAdjust (lane : ℚ) (p : Pace) : Pace :=
  let p1 := if lane ≤ 2 then { p with early := p.early - 3, middle := p.middle + 3 } else p
  if 4 ≤ lane then { p1 with early := p1.early + 3, late := p1.late - 3 } else p1

/-- The average opponent threat score used by the field-strength adjustment
(`reduce` then division by the length). -/
def avgThreat (opponents : List OpponentThreat) : ℚ :=
  (opponents.foldl (fun s o => s + tsOr o.threat_score 0) 0) / opponents.length

/-- The opponent field-strength adjustment of `computePace`. -/
def opponentAdjust (opponents : List OpponentThreat) (p : Pace) : Pace :=
  if 0 < opponents.length then
    if 50 < avgThreat opponents then
      { early := p.early + 2, middle := p.middle + 1, late := p.late - 3 }
    else if avgThreat opponents < 25 then
      { p with early := p.early - 3, late := p.late + 3 }
    else p
  else p

/-- The final normalization of `computePace`: early and middle by
proportional rounding, late as the remainder to 100. -/
def normalizePace (p : Pace) : Pace :=
  let total := p.early + p.middle + p.late
  let e := jsRoundQ (p.early / total * 100)
  let m := jsRoundQ (p.middle / total * 100)
  { early := e, middle := m, late := 100 - e - m }

/-- The pace triple after the three adjustments, before normalization. -/
def rawPace (style : Style) (distance : String) (lane : ℚ)
    (opponents : List OpponentThreat) : Pace :=
  opponentAdjust opponents (laneAdjust lane (distanceAdjust distance (paceBase style)))

/-- `computePace`: base triple, then the three adjustments in source order,
then normalization. -/
def computePace (style : Style) (distance : String) (lane : ℚ)
    (opponents : List OpponentThreat) : Pace :=
  normalizePace (rawPace style distance lane opponents)

-- ── Matchup analyzer (`buildMatchupInsights`) ──

/-- The insight produced for one opponent, or `none` for an opponent whose
style pair has no table row or whose sample size is below 5.  The source's
`for ... of` loop pushes at most one insight per opponent, so the loop over
the first three opponents is the `filterMap` in `buildMatchupInsights`. -/
def matchupInsightFor (myStyle : Style) (myMatchups : List (String × StyleMatchup))
    (opp : OpponentThreat) : Option MatchupInsight :=
  let oppStyle := opp.style
  match recGet myMatchups (styleStr oppStyle) with
  | none => none
  | some matchup =>
    if 5 ≤ matchup.total then
      let wr := matchup.win_rate
      let advantage := decide (0.55 < wr)
      let disadvantage := decide (wr < 0.45)
      let note :=
        if advantage then
          ("Your ") ++ styleLabel (styleStr myStyle) ++ (" style wins ")
            ++ numStr (jsRoundQ (wr * 100)) ++ ("% against ") ++ styleLabel (styleStr oppStyle)
        else if disadvantage then
          styleLabel (styleStr oppStyle) ++ (" beats your style ")
            ++ numStr (jsRoundQ ((1 - wr) * 100)) ++ ("% of the time — adjust tactics!")
        else
          ("Even matchup (") ++ numStr (jsRoundQ (wr * 100)) ++ ("%) — race execution will decide")
      some { opponent := opp.name
             flag := opp.flag
             advantage := advantage
             disadvantage := disadvantage
             winRate := wr
             myStyle := styleStr myStyle
             oppStyle := styleStr oppStyle
             note := note }
    else none

/-- `buildMatchupInsights`: insights for the first three of the
(threat-sorted) opponents, against the style-matchup table. -/
def buildMatchupInsights (myStyle : Style) (opponents : List OpponentThreat)
    (styleMatchups : List (String × List (String × StyleMatchup))) : List MatchupInsight :=
  match recGet styleMatchups (styleStr myStyle) with
  | none => []
  | some myMatchups => (opponents.take 3).filterMap (matchupInsightFor myStyle myMatchups)

-- ── Lap plan builder (`buildLapPlan`) ──

/-- The per-lap decision table of `buildLapPlan`, for lap number `lap` of
`totalLaps` (branches in source order). -/
def lapPlanItem (totalLaps : ℕ) (hotspotLapNums : List ℚ) (pace : Pace)
    (style : Style) (lap : ℕ) : LapPlanItem :=
  let pct : ℚ := (lap : ℚ) / (totalLaps : ℚ)
  let phase : Phase := if pct ≤ 0.33 then .Early else if pct ≤ 0.67 then .Mid else .Late
  let isHotspot := hotspotLapNums.contains ((lap : ℚ))
  let ac : String × ActionClass :=
    if lap = 1 then ("Position", .hold)
    else if lap = totalLaps then ("Sprint!", .push)
    else if lap = totalLaps - 1 then
      (if style = .late_mover then ("Attack!", ActionClass.push) else ("Push", ActionClass.push))
    else if isHotspot then
      if style = .front_runner ∧ pct ≤ 0.5 then ("Attack", .overtake)
      else if style = .late_mover ∧ 0.6 < pct then ("Attack", .overtake)
      else if style = .mid_surge ∧ 0.3 < pct ∧ pct < 0.7 then ("Surge", .overtake)
      else ("Ready", .overtake)
    else if pct ≤ 0.33 then
      (if 35 ≤ pace.early then ("Push", ActionClass.hold) else ("Conserve", ActionClass.conserve))
    else if pct ≤ 0.67 then ("Hold", .hold)
    else
      (if 35 ≤ pace.late then ("Push", ActionClass.push) else ("Hold", ActionClass.hold))
  { lap := lap, phase := phase, hotspot := isHotspot, action := ac.1, actionClass := ac.2 }

/-- `buildLapPlan`: the loop `for (lap = 1; lap <= totalLaps; lap++)`. -/
def buildLapPlan (totalLaps : ℕ) (hotspotLapNums : List ℚ) (pace : Pace)
    (style : Style) : List LapPlanItem :=
  (List.range totalLaps).map (fun i => lapPlanItem totalLaps hotspotLapNums pace style (i + 1))

-- ── Lap overtake chart data (`buildLapOvertakeData`) ──

def buildLapOvertakeData (distance : String) (strategyData : StrategyData)
    (hotspotLapNums : List ℚ) (totalLaps : ℕ) : List LapOvertakeData :=
  let lapDetails := (recGet strategyData.lap_details distance).getD []
  (List.range totalLaps).map (fun i =>
    let lap := i + 1
    let detail := recGet lapDetails (toString lap)
    { lap := lap
      overtakes := match detail with | some d => tsOr d.overtakes 0 | none => 0
      isHotspot := hotspotLapNums.contains ((lap : ℚ)) })

-- ── Synthetic competitor builder (`buildCustomSkater`) ──

structure CustomSkaterInput where
  name : String
  nationality : String
  flag : String
  style : Style
  pass_rate : ℚ
  passed_rate : ℚ
  threat : ℚ
deriving DecidableEq

/-- JS `name.replace(/\s+/g, "-")`: every maximal run of whitespace becomes
a single hyphen. -/
def collapseWhitespace (s : String) : String :=
  (s.toList.foldl
    (fun (acc : String × Bool) c =>
      if c.isWhitespace then
        if acc.2 then acc else (acc.1 ++ ((Char.ofNat 45).toString), true)
      else (acc.1 ++ c.toString, false))
    ("", false)).1

/-- `buildCustomSkater`: a fully populated profile from the setup sliders. -/
def buildCustomSkater (input : CustomSkaterInput) : Skater :=
  let totalRaces : ℚ := 10
  let passesMade := jsRoundQ (input.pass_rate * totalRaces)
  let timesPassed := jsRoundQ (input.passed_rate * totalRaces)
  let netPasses := passesMade - timesPassed
  let phaseSplit : ℚ × ℚ × ℚ :=
    match input.style with
    | .front_runner =>
      let e := jsRoundQ (passesMade * 0.5)
      let m := jsRoundQ (passesMade * 0.3)
      (e, m, passesMade - e - m)
    | .late_mover =>
      let l := jsRoundQ (passesMade * 0.5)
      let m := jsRoundQ (passesMade * 0.3)
      (passesMade - l - m, m, l)
    | .mid_surge =>
      let m := jsRoundQ (passesMade * 0.5)
      let e := jsRoundQ (passesMade * 0.25)
      (e, m, passesMade - m - e)
    | _ =>
      let e := jsRoundQ (passesMade * 0.33)
      let m := jsRoundQ (passesMade * 0.34)
      (e, m, passesMade - e - m)
  { id := ("custom-") ++ collapseWhitespace input.name.toLower
    name := input.name
    nationality := input.nationality
    flag := tsOrStr input.flag ("🏳️")
    gender := "Men"
    category := "senior"
    source := "custom"
    dob := none
    age := none
    height := none
    club := none
    age_category := none
    seasons := []
    personal_bests := none
    profile := none
    stats :=
      { total_races := totalRaces
        competitions_entered := 0
        total_passes_made := passesMade
        total_times_passed := timesPassed
        net_passes := netPasses
        avg_passes_per_race := input.pass_rate
        passes_early := phaseSplit.1
        passes_middle := phaseSplit.2.1
        passes_late := phaseSplit.2.2
        style := input.style
        threat_score := input.threat
        finals_appearances := 0
        medals := { gold := 0, silver := 0, bronze := 0, total := 0 }
        avg_place := none
        podium_rate := none
        win_rate := none
        penalties := 0
        dnf := 0
        dns := 0
        penalty_rate := 0
        clean_race_pct := 1
        crashes_inferred := 0
        crash_rate := 0 }
    events := []
    distances := [] }

-- ── Win probability model (`computeWinProbability`) ──

/-- The composite strength score of the selected competitor (the local
`myStrength` of `computeWinProbability`); the `?? 0` defaults on the
non-nullable stats fields are identities, `total_races || 1` is `tsOr`. -/
def myStrength (mySkater : Skater) : ℚ :=
  let myThreat := mySkater.stats.threat_score
  let myNetPasses := mySkater.stats.net_passes
  let myAvgPasses := mySkater.stats.avg_passes_per_race
  let myMedals := tsOr mySkater.stats.medals.gold 0 * 3
    + tsOr mySkater.stats.medals.silver 0 * 2 + tsOr mySkater.stats.medals.bronze 0
  let myRaces := tsOr mySkater.stats.total_races 1
  min 100 (max 0
    (myThreat * 0.4
      + min 30 (max (-10) (myNetPasses / myRaces * 15))
      + min 20 (myAvgPasses * 5)
      + min 20 (myMedals * 2)))

/-- The clamped mean of the opponents' analogous composite strengths (the
populated branch of `avgOppStrength` in `computeWinProbability`). -/
def oppFieldStrength (opponents : List OpponentThreat) : ℚ :=
  min 100 (max 0
    ((opponents.foldl
        (fun sum o =>
          sum + tsOr o.threat_score 0 * 0.4
            + min 30 (max (-10) (o.net_passes / max 1 o.total_races * 15))
            + min 20 (o.avg_passes_per_race * 5)
            + min 20 (tsOr o.medals_total 0 * 2))
        0) / opponents.length))

/-- The opponent-field strength actually used: the competitor's own strength
when no opponents are selected, else the field mean. -/
def avgOppStrength (myStr : ℚ) (opponents : List OpponentThreat) : ℚ :=
  if 0 < opponents.length then oppFieldStrength opponents else myStr

/-- The `reduce` accumulating the matchup contributions inside
`computeWinProbability`. -/
def matchupTotalAdv (matchupInsights : List MatchupInsight) : ℚ :=
  matchupInsights.foldl
    (fun sum m =>
      if m.advantage then sum + (m.winRate - 0.5) * 30
      else if m.disadvantage then sum + (m.winRate - 0.5) * 30
      else sum)
    0

/-- The lane base rate of `computeWinProbability`: lane win rate × 100 when
available, else the default 20. -/
def laneBaseOf (laneAdvData : Option LaneAdvantage) : ℚ :=
  match laneAdvData with
  | some la => jsRoundQ (la.win_rate * 100)
  | none => 20

/-- The lane top-2 rate of `computeWinProbability`: top-2 rate × 100 when
available, else the default 40. -/
def laneTop2Of (laneAdvData : Option LaneAdvantage) : ℚ :=
  match laneAdvData with
  | some la => match la.top2_rate with | some t2 => jsRoundQ (t2 * 100) | none => 40
  | none => 40

/-- `computeWinProbability`.  `expQ` is the runtime's `Math.exp`. -/
def computeWinProbability (expQ : ℚ → ℚ) (mySkater : Skater) (lane : ℚ)
    (_distance : String) (opponents : List OpponentThreat)
    (matchupInsights : List MatchupInsight)
    (laneAdvData : Option LaneAdvantage) : WinProbability :=
  let laneBase : ℚ := laneBaseOf laneAdvData
  let laneTop2 : ℚ := laneTop2Of laneAdvData
  let myStr := myStrength mySkater
  let hasOpponents := decide (0 < opponents.length)
  let avgOpp := avgOppStrength myStr opponents
  let strengthDelta := myStr - avgOpp
  let strengthAdj := jsRoundQ (50 * (2 / (1 + expQ (-strengthDelta / 20)) - 1))
  let matchupAdj : ℚ :=
    if 0 < matchupInsights.length then
      jsRoundQ (max (-15) (min 15 (matchupTotalAdv matchupInsights / matchupInsights.length)))
    else 0
  let rawWin := laneBase + strengthAdj + matchupAdj
  let overall := jsRoundQ (max 1 (min 99 rawWin))
  let rawPodium := laneTop2 + strengthAdj * 0.8 + matchupAdj * 0.5
  let podium := jsRoundQ (max 2 (min 99 rawPodium))
  let parts : List String :=
    if hasOpponents = false then
      [("Lane ") ++ numStr lane ++ (" base only (no opponents selected)")]
    else
      [("Lane ") ++ numStr lane ++ (" base: ") ++ numStr laneBase ++ ("%")]
      ++ (if 0 < strengthAdj then [("Strength edge: +") ++ numStr strengthAdj ++ ("%")]
          else if strengthAdj < 0 then [("Strength gap: ") ++ numStr strengthAdj ++ ("%")]
          else [("Strength: even")])
      ++ (if 0 < matchupAdj then [("Style matchup: +") ++ numStr matchupAdj ++ ("%")]
          else if matchupAdj < 0 then [("Style matchup: ") ++ numStr matchupAdj ++ ("%")]
          else [])
  let explanation := String.intercalate (" · ") parts
  { overall := overall
    laneBase := laneBase
    strengthAdj := strengthAdj
    matchupAdj := matchupAdj
    podium := podium
    explanation := explanation
    hasOpponents := hasOpponents }

-- ── Advice generator (`generateAdvice`) ──

/-- An ASCII apostrophe, for the advice templates. -/
def apo : String := (Char.ofNat 39).toString

/-- The `stageLabels` table local to the overtake-timing advice rule. -/
def stageLabels : List (String × String) :=
  [("early", "early laps"), ("middle", "mid-race"), ("late", "final laps")]

/-- The win-probability framing and strength-context rules (the `winProb`
branch of `generateAdvice`), with the lane-only fallback. -/
def winProbAdvice (lane : ℚ) (distance : String)
    (laneAdvData : Option LaneAdvantage) (winProb : Option WinProbability) : List AdviceItem :=
  match winProb with
  | some wp =>
    let wr := wp.overall
    let podium := wp.podium
    let first : AdviceItem :=
      if 40 ≤ wr then
        { icon := "🏆"
          text := ("Your personalized win chance is <strong>") ++ numStr wr
            ++ ("%</strong> (podium ") ++ numStr podium
            ++ ("%) — you have a clear edge. Stay disciplined and execute your game plan.") }
      else if 20 ≤ wr then
        { icon := "🎲"
          text := ("Your personalized win chance is <strong>") ++ numStr wr
            ++ ("%</strong> (podium ") ++ numStr podium
            ++ ("%) — competitive field. Smart tactics and clean execution will be key.") }
      else
        { icon := "⚠️"
          text := ("Your personalized win chance is <strong>") ++ numStr wr
            ++ ("%</strong> (podium ") ++ numStr podium
            ++ ("%) — tough opponents. Focus on clean laps, avoid crashes, and look for openings.") }
    let strengthItems : List AdviceItem :=
      if 15 < wp.strengthAdj then
        [{ icon := "💪"
           text := ("You have a significant skill advantage (+") ++ numStr wp.strengthAdj
             ++ ("% adjustment) over this field — control the pace and don") ++ apo
             ++ ("t take unnecessary risks.") }]
      else if wp.strengthAdj < -15 then
        [{ icon := "🧠"
           text := ("You") ++ apo ++ ("re facing stronger opponents (") ++ numStr wp.strengthAdj
             ++ ("% skill gap) — race smart, draft efficiently, and pick your moments carefully.") }]
      else []
    first :: strengthItems
  | none =>
    match laneAdvData with
    | some la =>
      [{ icon := "📍"
         text := ("Lane ") ++ numStr lane ++ (" has a ") ++ numStr (jsRoundQ (la.win_rate * 100))
           ++ ("% historical win rate in ") ++ distance ++ ("m.") }]
    | none => []

/-- `generateAdvice`: the fixed sequence of independently gated rules, in
source order, each appending zero or one item. -/
def generateAdvice (style : Style) (distance : String) (lane : ℚ)
    (laneAdvData : Option LaneAdvantage) (opponents : List OpponentThreat)
    (pace : Pace) (timing : List (String × TimingEntry)) (hotspots : List HotspotLap)
    (matchups : List MatchupInsight) (winProb : Option WinProbability) : List AdviceItem :=
  let totalLaps := totalLapsFor distance
  let wpItems := winProbAdvice lane distance laneAdvData winProb
  let threatItems : List AdviceItem :=
    match opponents with
    | [] => []
    | o :: _ =>
      if 50 ≤ o.threat_score then
        [{ icon := "🎯"
           text := ("Watch out for ") ++ o.flag ++ (" ") ++ o.name ++ (" (threat ")
             ++ numStr o.threat_score ++ (") — stay on their hip, don") ++ apo
             ++ ("t let them get away.") }]
      else []
  let timingEntries := List.insertionSort (fun a b => b.2.count ≤ a.2.count) timing
  let timingItems : List AdviceItem :=
    match timingEntries with
    | [] => []
    | best :: _ =>
      let label := (recGet stageLabels best.1).getD best.1
      [{ icon := "⏱️"
         text := ("Most overtakes in ") ++ distance ++ ("m happen in the ") ++ label
           ++ (" (") ++ numStr best.2.pct ++ ("%) — plan your moves for that window.") }]
  let hotspotItems : List AdviceItem :=
    if 0 < hotspots.length then
      [{ icon := "🔥"
         text := ("Overtake hotspots: ")
           ++ String.intercalate (", ") (hotspots.map (fun h => ("Lap ") ++ numStr h.lap))
           ++ (" — be ready to attack or defend on these laps.") }]
    else []
  let styleItems : List AdviceItem :=
    match style with
    | .late_mover =>
      [{ icon := "🐍"
         text := ("As a Late Mover, save energy early and stay in the pack. Launch your attack in the final ")
           ++ toString (max 2 (⌈(totalLaps : ℚ) * 0.2⌉ : ℤ)) ++ (" laps.") }]
    | .front_runner =>
      [{ icon := "🚀"
         text := ("As a Front Runner, get to the front early and control the pace — don") ++ apo
           ++ ("t let late movers draft behind you.") }]
    | .mid_surge =>
      [{ icon := "💥"
         text := "As a Mid-Surge skater, stay near the top 3 early, then make your big move in the middle laps." }]
    | .balanced =>
      [{ icon := "⚖️"
         text := "As a Balanced skater, read the race and adapt — respond to attacks rather than forcing them." }]
    | .no_passes =>
      [{ icon := "🛡️"
         text := "Focus on clean skating and holding position. Avoid risky passing attempts." }]
    | _ => []
  let badMatchups := matchups.filter (fun m => m.disadvantage)
  let matchupItems : List AdviceItem :=
    if 0 < badMatchups.length then
      [{ icon := "⚔️"
         text := ("Style disadvantage against ")
           ++ String.intercalate (", ") (badMatchups.map (fun m => m.flag ++ (" ") ++ m.opponent))
           ++ (" — avoid a direct duel; use smart positioning instead.") }]
    else []
  let penaltyDangers := opponents.filter (fun o => decide (0.15 < o.penalty_rate))
  let penaltyItems : List AdviceItem :=
    if 0 < penaltyDangers.length then
      [{ icon := "🟡"
         text := String.intercalate (", ") (penaltyDangers.map (fun o => o.flag ++ (" ") ++ o.name))
           ++ (" ") ++ (if 1 < penaltyDangers.length then ("get") else ("gets"))
           ++ (" penalized often — keep your distance so you don") ++ apo
           ++ ("t get caught up.") }]
    else []
  let crashDangers := opponents.filter (fun o => decide (0.1 < o.crash_rate))
  let crashItems : List AdviceItem :=
    if 0 < crashDangers.length then
      [{ icon := "💥"
         text := String.intercalate (", ") (crashDangers.map (fun o => o.flag ++ (" ") ++ o.name))
           ++ (" ") ++ (if 1 < crashDangers.length then ("have") else ("has"))
           ++ (" a high crash rate — stay clear to avoid being taken down.") }]
    else []
  let paceDesc :=
    if 38 ≤ pace.early then ("front-loaded aggressive start")
    else if 38 ≤ pace.late then ("back-loaded finish sprint")
    else ("even distribution")
  let paceItems : List AdviceItem :=
    [{ icon := "🏎️"
       text := ("Recommended pace: ") ++ paceDesc ++ (" — Early ") ++ numStr pace.early
         ++ ("% / Mid ") ++ numStr pace.middle ++ ("% / Late ") ++ numStr pace.late ++ ("%.") }]
  wpItems ++ threatItems ++ timingItems ++ hotspotItems ++ styleItems
    ++ matchupItems ++ penaltyItems ++ crashItems ++ paceItems

-- ── Strategy orchestrator (`generateStrategy`) ──

/-- `generateStrategy`: the single entry point.  The opponent sort models
the stable `Array.prototype.sort` under the descending threat-score
comparator; `expQ` is the runtime's `Math.exp`, threaded to the
win-probability model. -/
def generateStrategy (expQ : ℚ → ℚ) (mySkater : Skater) (distance : String)
    (lane : ℚ) (opponents : List OpponentThreat) (models : Option Models) : StrategyResult :=
  let strategyData := models.map (fun m => m.strategy)
  let totalLaps := totalLapsFor distance
  let style := mySkater.stats.style
  let laneAdvData :=
    (strategyData.bind (fun sd => recGet sd.lane_advantage distance)).bind
      (fun r => recGet r (numStr lane))
  let hotspots := (strategyData.bind (fun sd => recGet sd.hotspot_laps distance)).getD []
  let hotspotLapNums := hotspots.map (fun h => h.lap)
  let timing := (strategyData.bind (fun sd => recGet sd.overtake_timing distance)).getD []
  let styleMatchups := (strategyData.map (fun sd => sd.style_matchups)).getD []
  let sortedOpponents := List.insertionSort (fun a b => b.threat_score ≤ a.threat_score) opponents
  let pace := computePace style distance lane sortedOpponents
  let matchupInsights := buildMatchupInsights style sortedOpponents styleMatchups
  let laneWinRate := laneAdvData.map (fun la => jsRoundQ (la.win_rate * 100))
  let winProbability :=
    computeWinProbability expQ mySkater lane distance sortedOpponents matchupInsights laneAdvData
  let advice :=
    generateAdvice style distance lane laneAdvData sortedOpponents pace timing hotspots
      matchupInsights (some winProbability)
  let lapPlan := buildLapPlan totalLaps hotspotLapNums pace style
  let lapOvertakeData :=
    match strategyData with
    | some sd => buildLapOvertakeData distance sd hotspotLapNums totalLaps
    | none => []
  { mySkaterName := mySkater.name
    mySkaterFlag := mySkater.flag
    distance := distance
    lane := lane
    totalLaps := totalLaps
    style := style
    pace := pace
    advice := advice
    lapPlan := lapPlan
    opponentThreats := sortedOpponents
    matchupInsights := matchupInsights
    laneWinRate := laneWinRate
    winProbability := winProbability
    lapOvertakeData := lapOvertakeData }

-- ── Spec-side definitions (for the refinement comparison of C5) ──

/-- Modelled from the spec's words: the per-insight contribution to the
matchup adjustment — `(winRate − 0.5) × 30` for an insight tagged advantage
or disadvantage, `0` for an insight carrying neither flag. -/
def specMatchupContribution (m : MatchupInsight) : ℚ :=
  if m.advantage || m.disadvantage then (m.winRate - 0.5) * 30 else 0

/-- Modelled from the spec's words: the matchup adjustment is the mean of
the per-insight contributions, clamped to `[−15, 15]` and rounded; `0` when
there are no insights. -/
def specMatchupAdj (insights : List MatchupInsight) : ℚ :=
  if insights = [] then 0
  else jsRoundQ (max (-15) (min 15 ((insights.map specMatchupContribution).sum / insights.length)))

-- ── Concrete fixtures for witnesses and counterexamples ──

/-- A skater-stats fixture: everything zero, balanced style. -/
def baseStats : SkaterStats :=
  { total_races := 0
    competitions_entered := 0
    medals := { gold := 0, silver := 0, bronze := 0, total := 0 }
    finals_appearances := 0
    total_passes_made := 0
    total_times_passed := 0
    net_passes := 0
    avg_passes_per_race := 0
    passes_early := 0
    passes_middle := 0
    passes_late := 0
    style := .balanced
    threat_score := 0
    avg_place := none
    podium_rate := none
    win_rate := none
    penalties := 0
    dnf := 0
    dns := 0
    penalty_rate := 0
    clean_race_pct := 1
    crashes_inferred := 0
    crash_rate := 0 }

/-- A minimal skater fixture. -/
def baseSkater : Skater :=
  { id := "s1"
    name := "Skater One"
    nationality := "USA"
    flag := "🇺🇸"
    gender := "Men"
    category := "senior"
    source := "isu"
    dob := none
    age := none
    height := none
    club := none
    age_category := none
    seasons := []
    stats := baseStats
    distances := []
    personal_bests := none
    events := []
    profile := none }

/-- The base skater with a prescribed threat score. -/
def skaterWithThreat (t : ℚ) : Skater :=
  { baseSkater with stats := { baseStats with threat_score := t } }

/-- A minimal opponent-threat fixture with the given threat score. -/
def oppOfThreat (t : ℚ) : OpponentThreat :=
  { name := "Opp"
    flag := "🇳🇴"
    nationality := "NOR"
    style := .balanced
    threat_score := t
    threatLevel := computeThreatLevel t
    net_passes := 0
    avg_passes_per_race := 0
    total_races := 0
    medals_total := 0
    penalties := 0
    crash_count := 0
    penalty_rate := 0
    crash_rate := 0
    lane := none }

/-- A one-row style-matchup table fixture: balanced vs balanced, win rate
0.6 over 10 recorded matchups. -/
def matchupTblW : List (String × List (String × StyleMatchup)) :=
  [("balanced", [("balanced", { win_rate := 0.6, total := 10 })])]

/-- The insight the analyzer produces from `matchupTblW` for `oppOfThreat`. -/
def insW : MatchupInsight :=
  { opponent := "Opp"
    flag := "🇳🇴"
    advantage := true
    disadvantage := false
    winRate := 0.6
    myStyle := "balanced"
    oppStyle := "balanced"
    note := "Your Balanced style wins 60% against Balanced" }

/-- The spec scenario input for the synthetic competitor builder:
`pass_rate = 8`, `passed_rate = 2`, late-mover style. -/
def customInputW : CustomSkaterInput :=
  { name := "Custom"
    nationality := "USA"
    flag := ""
    style := .late_mover
    pass_rate := 8
    passed_rate := 2
    threat := 50 }

/-! ## Theorems -/

-- ── Helper lemmas about the numeric embedding ──

lemma tsOr_zero (x : ℚ) : tsOr x 0 = x := by
  unfold tsOr
  split <;> simp_all

lemma le_jsRound {n : ℤ} {x : ℚ} (h : (n : ℚ) - 1/2 ≤ x) : n ≤ jsRound x := by
  unfold jsRound
  exact Int.le_floor.mpr (by linarith)

lemma jsRound_le {n : ℤ} {x : ℚ} (h : x < (n : ℚ) + 1/2) : jsRound x ≤ n := by
  unfold jsRound
  have hlt : ⌊x + 1/2⌋ < n + 1 := Int.floor_lt.mpr (by push_cast; linarith)
  omega

lemma le_jsRoundQ {c x : ℚ} (n : ℤ) (hn : (n : ℚ) = c) (h : c - 1/2 ≤ x) : c ≤ jsRoundQ x := by
  unfold jsRoundQ
  rw [← hn] at h ⊢
  exact_mod_cast le_jsRound h

lemma jsRoundQ_le {c x : ℚ} (n : ℤ) (hn : (n : ℚ) = c) (h : x < c + 1/2) : jsRoundQ x ≤ c := by
  unfold jsRoundQ
  rw [← hn] at h ⊢
  exact_mod_cast jsRound_le h

lemma jsRoundQ_le_half (x : ℚ) : jsRoundQ x ≤ x + 1/2 := by
  unfold jsRoundQ jsRound
  exact Int.floor_le (x + 1/2)

-- ── Pace planner lemmas ──

lemma paceBase_bounds (style : Style) :
    (paceBase style).early + (paceBase style).middle + (paceBase style).late = 100
    ∧ 25 ≤ (paceBase style).early
    ∧ 34 ≤ (paceBase style).middle
    ∧ 25 ≤ (paceBase style).late := by
  cases style <;> simp only [paceBase] <;> norm_num

lemma distanceAdjust_bounds (distance : String) (p : Pace) :
    (distanceAdjust distance p).early + (distanceAdjust distance p).middle
        + (distanceAdjust distance p).late = p.early + p.middle + p.late
    ∧ p.early - 5 ≤ (distanceAdjust distance p).early
    ∧ p.middle ≤ (distanceAdjust distance p).middle
    ∧ p.late - 5 ≤ (distanceAdjust distance p).late := by
  simp only [distanceAdjust]
  split_ifs <;> refine ⟨?_, ?_, ?_, ?_⟩ <;> simp <;> linarith

lemma laneAdjust_bounds (lane : ℚ) (p : Pace) :
    (laneAdjust lane p).early + (laneAdjust lane p).middle + (laneAdjust lane p).late
        = p.early + p.middle + p.late
    ∧ p.early - 3 ≤ (laneAdjust lane p).early
    ∧ p.middle ≤ (laneAdjust lane p).middle
    ∧ p.late - 3 ≤ (laneAdjust lane p).late := by
  simp only [laneAdjust]
  split_ifs <;> refine ⟨?_, ?_, ?_, ?_⟩ <;> simp <;> linarith

lemma opponentAdjust_bounds (opponents : List OpponentThreat) (p : Pace) :
    (opponentAdjust opponents p).early + (opponentAdjust opponents p).middle
        + (opponentAdjust opponents p).late = p.early + p.middle + p.late
    ∧ p.early - 3 ≤ (opponentAdjust opponents p).early
    ∧ p.middle ≤ (opponentAdjust opponents p).middle
    ∧ p.late - 3 ≤ (opponentAdjust opponents p).late := by
  simp only [opponentAdjust]
  split_ifs <;> refine ⟨?_, ?_, ?_, ?_⟩ <;> simp <;> linarith

/-- Every raw (pre-normalization) pace triple sums to exactly 100 (each
adjustment is balanced) and its components stay well away from 0. -/
lemma rawPace_bounds (style : Style) (distance : String) (lane : ℚ)
    (opponents : List OpponentThreat) :
    (rawPace style distance lane opponents).early + (rawPace style distance lane opponents).middle
        + (rawPace style distance lane opponents).late = 100
    ∧ 14 ≤ (rawPace style distance lane opponents).early
    ∧ 34 ≤ (rawPace style distance lane opponents).middle
    ∧ 14 ≤ (rawPace style distance lane opponents).late := by
  obtain ⟨h0, h1, h2, h3⟩ := paceBase_bounds style
  obtain ⟨d0, d1, d2, d3⟩ := distanceAdjust_bounds distance (paceBase style)
  obtain ⟨l0, l1, l2, l3⟩ := laneAdjust_bounds lane (distanceAdjust distance (paceBase style))
  obtain ⟨o0, o1, o2, o3⟩ :=
    opponentAdjust_bounds opponents (laneAdjust lane (distanceAdjust distance (paceBase style)))
  unfold rawPace
  refine ⟨by linarith, by linarith, by linarith, by linarith⟩

/-- C1: for every style, distance string, lane number and opponent list,
the pace returned by `computePace` satisfies `early + middle + late = 100`
and each of the three components is nonnegative. -/
theorem computePace_sum100_nonneg (style : Style) (distance : String) (lane : ℚ)
    (opponents : List OpponentThreat) :
    (computePace style distance lane opponents).early
        + (computePace style distance lane opponents).middle
        + (computePace style distance lane opponents).late = 100
    ∧ 0 ≤ (computePace style distance lane opponents).early
    ∧ 0 ≤ (computePace style distance lane opponents).middle
    ∧ 0 ≤ (computePace style distance lane opponents).late := by
  obtain ⟨hsum, he, hm, hl⟩ := rawPace_bounds style distance lane opponents
  set p := rawPace style distance lane opponents with hp
  have hcp : computePace style distance lane opponents = normalizePace p := rfl
  have hne : (normalizePace p).early = jsRoundQ p.early := by
    show jsRoundQ (p.early / (p.early + p.middle + p.late) * 100) = jsRoundQ p.early
    rw [hsum, div_mul_cancel₀ _ (by norm_num : (100:ℚ) ≠ 0)]
  have hnm : (normalizePace p).middle = jsRoundQ p.middle := by
    show jsRoundQ (p.middle / (p.early + p.middle + p.late) * 100) = jsRoundQ p.middle
    rw [hsum, div_mul_cancel₀ _ (by norm_num : (100:ℚ) ≠ 0)]
  have hnl : (normalizePace p).late = 100 - (normalizePace p).early - (normalizePace p).middle := rfl
  rw [hcp]
  refine ⟨by rw [hnl]; ring, ?_, ?_, ?_⟩
  · rw [hne]
    exact le_jsRoundQ 0 (by norm_num) (by linarith)
  · rw [hnm]
    exact le_jsRoundQ 0 (by norm_num) (by linarith)
  · rw [hnl, hne, hnm]
    have h1 := jsRoundQ_le_half p.early
    have h2 := jsRoundQ_le_half p.middle
    linarith

/-- C2 counterexample: against one opponent of threat score 60 (so the field
average 60 exceeds 50), the pace of a balanced skater in lane 3 over 1000 m
comes out `(35, 35, 30)`, versus `(33, 34, 33)` with no opponents — the
high-threat field-strength adjustment moves effort weight AWAY from the late
component, not toward it as the claim states. -/
theorem computePace_highThreat_shifts_earlier_cex :
    50 < avgThreat [oppOfThreat 60]
    ∧ computePace .balanced ("1000") 3 [oppOfThreat 60]
        = { early := 35, middle := 35, late := 30 }
    ∧ computePace .balanced ("1000") 3 []
        = { early := 33, middle := 34, late := 33 }
    ∧ (computePace .balanced ("1000") 3 [oppOfThreat 60]).late
        < (computePace .balanced ("1000") 3 []).late := by
  refine ⟨by decide, by decide, by decide, by decide⟩

/-- C2 (amended): when the opponent list is non-empty and the average threat
score exceeds 50, the field-strength adjustment shifts effort weight EARLIER
(early +2, middle +1, late −3); when the average is below 25, it shifts
effort weight LATER (early −3, late +3). -/
theorem opponentAdjust_direction (opponents : List OpponentThreat) (p : Pace)
    (h : opponents ≠ []) :
    (50 < avgThreat opponents →
      opponentAdjust opponents p
        = { early := p.early + 2, middle := p.middle + 1, late := p.late - 3 })
    ∧ (avgThreat opponents < 25 →
      opponentAdjust opponents p
        = { early := p.early - 3, middle := p.middle, late := p.late + 3 }) := by
  have hlen : 0 < opponents.length := List.length_pos.mpr h
  constructor <;> intro hc <;> unfold opponentAdjust <;>
    split_ifs <;> first | rfl | linarith

theorem opponentAdjust_direction_witness :
    (50 < avgThreat [oppOfThreat 60] →
      opponentAdjust [oppOfThreat 60] { early := 33, middle := 34, late := 33 }
        = { early := 33 + 2, middle := 34 + 1, late := 33 - 3 })
    ∧ (avgThreat [oppOfThreat 60] < 25 →
      opponentAdjust [oppOfThreat 60] { early := 33, middle := 34, late := 33 }
        = { early := 33 - 3, middle := 34, late := 33 + 3 }) :=
  opponentAdjust_direction [oppOfThreat 60] { early := 33, middle := 34, late := 33 } (by decide)

-- ── Win probability lemmas ──

lemma jsRoundQ_clamp {lo hi x : ℚ} (nlo nhi : ℤ) (hlo : (nlo : ℚ) = lo) (hhi : (nhi : ℚ) = hi)
    (hlh : lo ≤ hi) :
    lo ≤ jsRoundQ (max lo (min hi x)) ∧ jsRoundQ (max lo (min hi x)) ≤ hi := by
  have h1 : lo ≤ max lo (min hi x) := le_max_left _ _
  have h2 : max lo (min hi x) ≤ hi := max_le hlh (min_le_left _ _)
  exact ⟨le_jsRoundQ nlo hlo (by linarith), jsRoundQ_le nhi hhi (by linarith)⟩

/-- C3: for every profile, lane, distance, opponent list, insight list and
lane-advantage record (present or absent), the win probability satisfies
`1 ≤ overall ≤ 99`, `2 ≤ podium ≤ 99`, `strengthAdj ∈ [−50, 50]` and
`matchupAdj ∈ [−15, 15]`.  The only fact assumed about the exponential is
its positivity. -/
theorem computeWinProbability_bounds (expQ : ℚ → ℚ) (mySkater : Skater) (lane : ℚ)
    (distance : String) (opponents : List OpponentThreat)
    (matchupInsights : List MatchupInsight) (laneAdvData : Option LaneAdvantage)
    (hexp : ∀ t, 0 < expQ t) :
    (1 ≤ (computeWinProbability expQ mySkater lane distance opponents matchupInsights laneAdvData).overall
      ∧ (computeWinProbability expQ mySkater lane distance opponents matchupInsights laneAdvData).overall ≤ 99)
    ∧ (2 ≤ (computeWinProbability expQ mySkater lane distance opponents matchupInsights laneAdvData).podium
      ∧ (computeWinProbability expQ mySkater lane distance opponents matchupInsights laneAdvData).podium ≤ 99)
    ∧ (-50 ≤ (computeWinProbability expQ mySkater lane distance opponents matchupInsights laneAdvData).strengthAdj
      ∧ (computeWinProbability expQ mySkater lane distance opponents matchupInsights laneAdvData).strengthAdj ≤ 50)
    ∧ (-15 ≤ (computeWinProbability expQ mySkater lane distance opponents matchupInsights laneAdvData).matchupAdj
      ∧ (computeWinProbability expQ mySkater lane distance opponents matchupInsights laneAdvData).matchupAdj ≤ 15) := by
  set w := computeWinProbability expQ mySkater lane distance opponents matchupInsights laneAdvData with hw
  have hov : w.overall = jsRoundQ (max 1 (min 99 (w.laneBase + w.strengthAdj + w.matchupAdj))) := rfl
  have hpd : w.podium = jsRoundQ (max 2 (min 99
      (laneTop2Of laneAdvData + w.strengthAdj * 0.8 + w.matchupAdj * 0.5))) := rfl
  have hsa : w.strengthAdj = jsRoundQ (50 * (2 / (1 + expQ
      (-(myStrength mySkater - avgOppStrength (myStrength mySkater) opponents) / 20)) - 1)) := rfl
  have hma : w.matchupAdj = (if 0 < matchupInsights.length then
      jsRoundQ (max (-15) (min 15 (matchupTotalAdv matchupInsights / matchupInsights.length)))
    else 0) := rfl
  have he : 0 < expQ (-(myStrength mySkater - avgOppStrength (myStrength mySkater) opponents) / 20) :=
    hexp _
  set e := expQ (-(myStrength mySkater - avgOppStrength (myStrength mySkater) opponents) / 20) with hee
  have ht0 : 0 < 2 / (1 + e) := div_pos (by norm_num) (by linarith)
  have ht2 : 2 / (1 + e) < 2 := by
    rw [div_lt_iff₀ (by linarith)]
    linarith
  have hsb : -50 ≤ w.strengthAdj ∧ w.strengthAdj ≤ 50 := by
    rw [hsa]
    exact ⟨le_jsRoundQ (-50) (by norm_num) (by linarith), jsRoundQ_le 50 (by norm_num) (by linarith)⟩
  have hmb : -15 ≤ w.matchupAdj ∧ w.matchupAdj ≤ 15 := by
    rw [hma]
    split_ifs
    · exact jsRoundQ_clamp (-15) 15 (by norm_num) (by norm_num) (by norm_num)
    · norm_num
  have hob : 1 ≤ w.overall ∧ w.overall ≤ 99 := by
    rw [hov]
    exact jsRoundQ_clamp 1 99 (by norm_num) (by norm_num) (by norm_num)
  have hpb : 2 ≤ w.podium ∧ w.podium ≤ 99 := by
    rw [hpd]
    exact jsRoundQ_clamp 2 99 (by norm_num) (by norm_num) (by norm_num)
  exact ⟨hob, hpb, hsb, hmb⟩

theorem computeWinProbability_bounds_witness :
    (1 ≤ (computeWinProbability (fun _ => 1) baseSkater 4 ("500") [] [] none).overall
      ∧ (computeWinProbability (fun _ => 1) baseSkater 4 ("500") [] [] none).overall ≤ 99)
    ∧ (2 ≤ (computeWinProbability (fun _ => 1) baseSkater 4 ("500") [] [] none).podium
      ∧ (computeWinProbability (fun _ => 1) baseSkater 4 ("500") [] [] none).podium ≤ 99)
    ∧ (-50 ≤ (computeWinProbability (fun _ => 1) baseSkater 4 ("500") [] [] none).strengthAdj
      ∧ (computeWinProbability (fun _ => 1) baseSkater 4 ("500") [] [] none).strengthAdj ≤ 50)
    ∧ (-15 ≤ (computeWinProbability (fun _ => 1) baseSkater 4 ("500") [] [] none).matchupAdj
      ∧ (computeWinProbability (fun _ => 1) baseSkater 4 ("500") [] [] none).matchupAdj ≤ 15) :=
  computeWinProbability_bounds (fun _ => 1) baseSkater 4 ("500") [] [] none (fun t => by norm_num)

/-- C4: with an empty opponent list the result is flagged `hasOpponents =
false`, the opponent-field strength used is the competitor's own composite
strength (not zero), and the strength adjustment is exactly 0 (using only
that the exponential maps 0 to 1). -/
theorem computeWinProbability_noOpponents (expQ : ℚ → ℚ) (mySkater : Skater) (lane : ℚ)
    (distance : String) (matchupInsights : List MatchupInsight)
    (laneAdvData : Option LaneAdvantage) (hexp0 : expQ 0 = 1) :
    (computeWinProbability expQ mySkater lane distance [] matchupInsights laneAdvData).hasOpponents = false
    ∧ avgOppStrength (myStrength mySkater) [] = myStrength mySkater
    ∧ (computeWinProbability expQ mySkater lane distance [] matchupInsights laneAdvData).strengthAdj = 0 := by
  refine ⟨rfl, rfl, ?_⟩
  have hsa : (computeWinProbability expQ mySkater lane distance [] matchupInsights laneAdvData).strengthAdj
      = jsRoundQ (50 * (2 / (1 + expQ
          (-(myStrength mySkater - avgOppStrength (myStrength mySkater) []) / 20)) - 1)) := rfl
  rw [hsa]
  have hz : -(myStrength mySkater - avgOppStrength (myStrength mySkater) []) / 20 = 0 := by
    have hself : avgOppStrength (myStrength mySkater) [] = myStrength mySkater := rfl
    rw [hself]
    ring
  rw [hz, hexp0]
  decide

theorem computeWinProbability_noOpponents_witness :
    (computeWinProbability (fun _ => 1) baseSkater 4 ("500") [] [] none).hasOpponents = false
    ∧ avgOppStrength (myStrength baseSkater) [] = myStrength baseSkater
    ∧ (computeWinProbability (fun _ => 1) baseSkater 4 ("500") [] [] none).strengthAdj = 0 :=
  computeWinProbability_noOpponents (fun _ => 1) baseSkater 4 ("500") [] none rfl

-- ── Matchup adjustment refinement (C5) ──

lemma matchupTotalAdv_eq_spec (l : List MatchupInsight) :
    matchupTotalAdv l = (l.map specMatchupContribution).sum := by
  have key : ∀ (xs : List MatchupInsight) (a : ℚ),
      xs.foldl (fun sum m =>
        if m.advantage then sum + (m.winRate - 0.5) * 30
        else if m.disadvantage then sum + (m.winRate - 0.5) * 30
        else sum) a
      = a + (xs.map specMatchupContribution).sum := by
    intro xs
    induction xs with
    | nil => intro a; simp
    | cons x tl ih =>
      intro a
      cases hx : x.advantage <;> cases hy : x.disadvantage <;>
        simp [specMatchupContribution, hx, hy, ih] <;> ring
  unfold matchupTotalAdv
  simpa using key l 0

/-- C5: the matchup adjustment computed by `computeWinProbability` equals
the spec-side formula: the rounded clamp to `[−15, 15]` of the mean of the
per-insight contributions `(winRate − 0.5) × 30` (0 for an insight tagged
neither advantage nor disadvantage), and 0 for an empty insight list. -/
theorem computeWinProbability_matchupAdj_spec (expQ : ℚ → ℚ) (mySkater : Skater) (lane : ℚ)
    (distance : String) (opponents : List OpponentThreat)
    (matchupInsights : List MatchupInsight) (laneAdvData : Option LaneAdvantage) :
    (computeWinProbability expQ mySkater lane distance opponents matchupInsights laneAdvData).matchupAdj
      = specMatchupAdj matchupInsights := by
  have hma : (computeWinProbability expQ mySkater lane distance opponents matchupInsights laneAdvData).matchupAdj
      = (if 0 < matchupInsights.length then
          jsRoundQ (max (-15) (min 15 (matchupTotalAdv matchupInsights / matchupInsights.length)))
        else 0) := rfl
  rw [hma]
  unfold specMatchupAdj
  rcases matchupInsights with _ | ⟨x, xs⟩
  · simp
  · rw [matchupTotalAdv_eq_spec]
    simp

-- ── Matchup analyzer (C6) ──

/-- C6: the matchup analyzer produces at most three insights; every insight
it produces comes from one of the first three opponents of the sorted list,
through a style-matchup table entry whose sample size is at least 5 (so an
opponent with no table entry, or one below the sample threshold, yields no
insight even when a win rate exists); and each insight carries the advantage
flag exactly when the win rate exceeds 0.55 and the disadvantage flag
exactly when it is below 0.45. -/
theorem buildMatchupInsights_spec (myStyle : Style) (opponents : List OpponentThreat)
    (styleMatchups : List (String × List (String × StyleMatchup))) :
    (buildMatchupInsights myStyle opponents styleMatchups).length ≤ 3
    ∧ ∀ ins ∈ buildMatchupInsights myStyle opponents styleMatchups,
        ∃ opp ∈ opponents.take 3,
          ∃ myMatchups, recGet styleMatchups (styleStr myStyle) = some myMatchups
            ∧ ∃ mu, recGet myMatchups (styleStr opp.style) = some mu
              ∧ 5 ≤ mu.total
              ∧ ins.opponent = opp.name
              ∧ ins.winRate = mu.win_rate
              ∧ (ins.advantage = true ↔ 0.55 < mu.win_rate)
              ∧ (ins.disadvantage = true ↔ mu.win_rate < 0.45) := by
  unfold buildMatchupInsights
  cases hrow : recGet styleMatchups (styleStr myStyle) with
  | none => simp
  | some mm =>
    constructor
    · calc ((opponents.take 3).filterMap (matchupInsightFor myStyle mm)).length
          ≤ (opponents.take 3).length := List.length_filterMap_le _ _
        _ ≤ 3 := by
          rw [List.length_take]
          exact min_le_left _ _
    · intro ins hins
      rw [List.mem_filterMap] at hins
      obtain ⟨opp, hopp, hf⟩ := hins
      refine ⟨opp, hopp, mm, rfl, ?_⟩
      simp only [matchupInsightFor] at hf
      cases hmu : recGet mm (styleStr opp.style) with
      | none =>
        rw [hmu] at hf
        simp at hf
      | some mu =>
        rw [hmu] at hf
        dsimp only at hf
        by_cases ht : 5 ≤ mu.total
        · rw [if_pos ht] at hf
          have hins' := Option.some.inj hf
          subst hins'
          refine ⟨mu, rfl, ht, rfl, rfl, ?_, ?_⟩ <;> simp
        · rw [if_neg ht] at hf
          simp at hf

theorem buildMatchupInsights_spec_witness :
    ∃ opp ∈ ([oppOfThreat 60].take 3),
      ∃ myMatchups, recGet matchupTblW (styleStr Style.balanced) = some myMatchups
        ∧ ∃ mu, recGet myMatchups (styleStr opp.style) = some mu
          ∧ 5 ≤ mu.total
          ∧ insW.opponent = opp.name
          ∧ insW.winRate = mu.win_rate
          ∧ (insW.advantage = true ↔ 0.55 < mu.win_rate)
          ∧ (insW.disadvantage = true ↔ mu.win_rate < 0.45) :=
  (buildMatchupInsights_spec .balanced [oppOfThreat 60] matchupTblW).2 insW (by decide)

-- ── Lap plan builder (C7) ──

/-- C7 counterexample: the action string of the final lap is `"Sprint!"`,
not `"Sprint"`; and in a two-lap race the second-to-last lap is lap 1,
whose action is `"Position"`, not an attack, even for a late mover. -/
theorem buildLapPlan_label_cex :
    ((buildLapPlan 5 [] { early := 40, middle := 35, late := 25 } .front_runner).map
        (fun it => it.action))[4]? = some ("Sprint!")
    ∧ ("Sprint!" : String) ≠ "Sprint"
    ∧ ((buildLapPlan 2 [] { early := 40, middle := 35, late := 25 } .late_mover).map
        (fun it => it.action))[0]? = some ("Position")
    ∧ ("Position" : String) ≠ "Attack" := by
  refine ⟨by decide, by decide, by decide, by decide⟩

lemma buildLapPlan_getElem? (totalLaps : ℕ) (hotspotLapNums : List ℚ) (pace : Pace)
    (style : Style) (i : ℕ) (hi : i < totalLaps) :
    ((buildLapPlan totalLaps hotspotLapNums pace style).map
        (fun it => (it.action, it.actionClass)))[i]?
      = some (((lapPlanItem totalLaps hotspotLapNums pace style (i + 1)).action,
          (lapPlanItem totalLaps hotspotLapNums pace style (i + 1)).actionClass)) := by
  unfold buildLapPlan
  rw [List.getElem?_map, List.getElem?_map, List.getElem?_range hi]
  rfl

/-- C7 (amended): for every race of at least three laps — which covers every
distance the engine produces — lap 1 is `"Position"` with action class hold,
the final lap is `"Sprint!"` with class push, and the second-to-last lap is
`"Attack!"` for a late mover and `"Push"` otherwise, with class push,
regardless of the hotspot set and the pace. -/
theorem buildLapPlan_endpoints (totalLaps : ℕ) (hotspotLapNums : List ℚ) (pace : Pace)
    (style : Style) (h : 3 ≤ totalLaps) :
    ((buildLapPlan totalLaps hotspotLapNums pace style).map
        (fun it => (it.action, it.actionClass)))[0]? = some (("Position", ActionClass.hold))
    ∧ ((buildLapPlan totalLaps hotspotLapNums pace style).map
        (fun it => (it.action, it.actionClass)))[totalLaps - 1]?
      = some (("Sprint!", ActionClass.push))
    ∧ ((buildLapPlan totalLaps hotspotLapNums pace style).map
        (fun it => (it.action, it.actionClass)))[totalLaps - 2]?
      = some (((if style = Style.late_mover then ("Attack!") else ("Push")), ActionClass.push)) := by
  refine ⟨?_, ?_, ?_⟩
  · rw [buildLapPlan_getElem? totalLaps hotspotLapNums pace style 0 (by omega)]
    simp [lapPlanItem]
  · rw [buildLapPlan_getElem? totalLaps hotspotLapNums pace style (totalLaps - 1) (by omega)]
    have e1 : totalLaps - 1 + 1 = totalLaps := by omega
    have h1 : ¬(totalLaps = 1) := by omega
    rw [e1]
    simp [lapPlanItem, h1]
  · rw [buildLapPlan_getElem? totalLaps hotspotLapNums pace style (totalLaps - 2) (by omega)]
    have e2 : totalLaps - 2 + 1 = totalLaps - 1 := by omega
    have h1 : ¬(totalLaps - 1 = 1) := by omega
    have h2 : ¬(totalLaps - 1 = totalLaps) := by omega
    rw [e2]
    by_cases hs : style = Style.late_mover <;> simp [lapPlanItem, h1, h2, hs]

theorem buildLapPlan_endpoints_witness :
    ((buildLapPlan 5 [] { early := 40, middle := 35, late := 25 } .front_runner).map
        (fun it => (it.action, it.actionClass)))[0]? = some (("Position", ActionClass.hold))
    ∧ ((buildLapPlan 5 [] { early := 40, middle := 35, late := 25 } .front_runner).map
        (fun it => (it.action, it.actionClass)))[5 - 1]? = some (("Sprint!", ActionClass.push))
    ∧ ((buildLapPlan 5 [] { early := 40, middle := 35, late := 25 } .front_runner).map
        (fun it => (it.action, it.actionClass)))[5 - 2]?
      = some (((if Style.front_runner = Style.late_mover then ("Attack!") else ("Push")),
          ActionClass.push)) :=
  buildLapPlan_endpoints 5 [] { early := 40, middle := 35, late := 25 } .front_runner (by norm_num)

-- ── Synthetic competitor builder (C8) ──

/-- C8 counterexample: for the scenario input the builder allocates exactly
40 of the 80 made passes to `passes_late` — exactly half, so NOT a strict
majority as the claim states. -/
theorem buildCustomSkater_majority_cex :
    (buildCustomSkater customInputW).stats.total_passes_made = 80
    ∧ (buildCustomSkater customInputW).stats.passes_late = 40
    ∧ ¬ (80 < 2 * (buildCustomSkater customInputW).stats.passes_late) := by
  refine ⟨by decide, by decide, by decide⟩

/-- C8 (amended): for pass_rate 8, passed_rate 2 and late-mover style the
profile has `net_passes = 60`, `avg_passes_per_race = 8`, and exactly half
(40) of the 80 made passes allocated to `passes_late` — the largest phase
share (a plurality over early = 16 and middle = 24), but not a strict
majority. -/
theorem buildCustomSkater_lateMover_scenario :
    (buildCustomSkater customInputW).stats.net_passes = 60
    ∧ (buildCustomSkater customInputW).stats.avg_passes_per_race = 8
    ∧ (buildCustomSkater customInputW).stats.total_passes_made = 80
    ∧ (buildCustomSkater customInputW).stats.passes_late = 40
    ∧ 2 * (buildCustomSkater customInputW).stats.passes_late = 80
    ∧ (buildCustomSkater customInputW).stats.passes_early
        < (buildCustomSkater customInputW).stats.passes_late
    ∧ (buildCustomSkater customInputW).stats.passes_middle
        < (buildCustomSkater customInputW).stats.passes_late := by
  refine ⟨by decide, by decide, by decide, by decide, by decide, by decide, by decide⟩

-- ── Threat evaluator (C9) ──

/-- C9 counterexample: for a profile with threat score 59.5, the record's
own `threat_score` field is the rounded 60 (which the fixed thresholds
classify as high), while the carried `threatLevel` is computed from the
unrounded 59.5 and is medium — so the level does not match the
classification of the record's own field. -/
theorem buildOpponentThreat_roundedLevel_cex :
    (buildOpponentThreat (skaterWithThreat (119/2)) none).threat_score = 60
    ∧ (buildOpponentThreat (skaterWithThreat (119/2)) none).threatLevel = ThreatLevel.medium
    ∧ computeThreatLevel ((buildOpponentThreat (skaterWithThreat (119/2)) none).threat_score)
        = ThreatLevel.high
    ∧ ThreatLevel.medium ≠ ThreatLevel.high := by
  refine ⟨by decide, by decide, by decide, by decide⟩

/-- C9 (amended): the `threatLevel` carried by the record is the
fixed-threshold classification (≥60 high, ≥30 medium, else low) of the
profile's UNROUNDED `stats.threat_score`, while the record's `threat_score`
field is the rounded score (the two agree whenever the stored score is an
integer); the boundary examples hold: 59 → medium, 60 → high, 29 → low,
30 → medium. -/
theorem buildOpponentThreat_threatLevel (skater : Skater) (lane : Option ℚ) :
    (buildOpponentThreat skater lane).threatLevel = computeThreatLevel skater.stats.threat_score
    ∧ (buildOpponentThreat skater lane).threat_score = jsRoundQ skater.stats.threat_score
    ∧ computeThreatLevel 59 = ThreatLevel.medium
    ∧ computeThreatLevel 60 = ThreatLevel.high
    ∧ computeThreatLevel 29 = ThreatLevel.low
    ∧ computeThreatLevel 30 = ThreatLevel.medium := by
  refine ⟨?_, ?_, by decide, by decide, by decide, by decide⟩
  · show computeThreatLevel (tsOr skater.stats.threat_score 0) = _
    rw [tsOr_zero]
  · show jsRoundQ (tsOr skater.stats.threat_score 0) = _
    rw [tsOr_zero]

-- ── Orchestrator determinism (C10) ──

/-- C10: `generateStrategy` is deterministic — two calls with equal inputs
(and the same runtime exponential) return equal `StrategyResult` values in
every field, advice list, lap plan and explanation strings included. -/
theorem generateStrategy_deterministic (expQ : ℚ → ℚ) (s1 s2 : Skater)
    (d1 d2 : String) (l1 l2 : ℚ) (o1 o2 : List OpponentThreat)
    (m1 m2 : Option Models) (hs : s1 = s2) (hd : d1 = d2) (hl : l1 = l2)
    (ho : o1 = o2) (hm : m1 = m2) :
    generateStrategy expQ s1 d1 l1 o1 m1 = generateStrategy expQ s2 d2 l2 o2 m2 := by
  subst hs
  subst hd
  subst hl
  subst ho
  subst hm
  rfl

theorem generateStrategy_deterministic_witness :
    generateStrategy (fun _ => 1) baseSkater ("500") 1 [] none
      = generateStrategy (fun _ => 1) baseSkater ("500") 1 [] none :=
  generateStrategy_deterministic (fun _ => 1) baseSkater baseSkater ("500") ("500") 1 1 [] []
    none none rfl rfl rfl rfl rfl

end ShortTrack
